import Mathlib

/-!
Shallow embedding of `src/core/financial/engine/sta_financial_engine_v0_1.py`
(STA Financial Engine v0.1).

Modelling conventions:
* Python floats are modelled by `PyFloat`: an exact rational for finite
  values, plus distinguished `inf` / `ninf` / `nan` values with IEEE-style
  comparison and arithmetic rules (comparisons with `nan` are `false`,
  `inf + ninf = nan`, ...).  Binary rounding of finite values is idealized
  away: finite arithmetic is exact rational arithmetic.
* Python `None`-able values are `Option PyFloat`; raw JSON scalars are
  `RawValue` (null, number, bool, string, or any other object).
* Python dicts are association lists with the insertion semantics of
  CPython dicts: assignment to an existing key replaces the value in
  place, a new key is appended (`dinsert`), lookup is `dget`.
* `str.strip` / `str.replace(c, "")` are modelled character-exactly on
  ASCII whitespace (`stripChars`, `removeChar`).
* Python's builtin `float(string)` is modelled by `pyFloatOfString`
  following its documented grammar: optional sign, then `inf`/`infinity`/
  `nan` (case-insensitive) or a decimal number with optional fractional
  part, underscores between digits, and optional exponent.
-/

/-- Model of a Python `float` value: finite (exact rational), `inf`, `-inf`, `nan`. -/
inductive PyFloat where
  | finite (q : ℚ)
  | inf
  | ninf
  | nan
deriving DecidableEq, Repr

/-- Python `math.isnan`. -/
def PyFloat.isNaN : PyFloat → Bool
  | .nan => true
  | _ => false

/-- Negation of a Python float. -/
def PyFloat.neg : PyFloat → PyFloat
  | .finite q => .finite (-q)
  | .inf => .ninf
  | .ninf => .inf
  | .nan => .nan

/-- Python `abs` on floats. -/
def PyFloat.abs : PyFloat → PyFloat
  | .finite q => .finite |q|
  | .inf => .inf
  | .ninf => .inf
  | .nan => .nan

/-- Python float addition (finite part exact). -/
def PyFloat.add : PyFloat → PyFloat → PyFloat
  | .nan, _ => .nan
  | _, .nan => .nan
  | .inf, .ninf => .nan
  | .ninf, .inf => .nan
  | .inf, _ => .inf
  | _, .inf => .inf
  | .ninf, _ => .ninf
  | _, .ninf => .ninf
  | .finite a, .finite b => .finite (a + b)

/-- Python float subtraction. -/
def PyFloat.sub (a b : PyFloat) : PyFloat := a.add b.neg

/-- Python float multiplication (finite part exact). -/
def PyFloat.mul : PyFloat → PyFloat → PyFloat
  | .nan, _ => .nan
  | _, .nan => .nan
  | .inf, .inf => .inf
  | .inf, .ninf => .ninf
  | .ninf, .inf => .ninf
  | .ninf, .ninf => .inf
  | .inf, .finite b => if b = 0 then .nan else if 0 < b then .inf else .ninf
  | .ninf, .finite b => if b = 0 then .nan else if 0 < b then .ninf else .inf
  | .finite a, .inf => if a = 0 then .nan else if 0 < a then .inf else .ninf
  | .finite a, .ninf => if a = 0 then .nan else if 0 < a then .ninf else .inf
  | .finite a, .finite b => .finite (a * b)

/-- Python `a <= b` on floats: `false` whenever either side is `nan`. -/
def PyFloat.le : PyFloat → PyFloat → Bool
  | .nan, _ => false
  | _, .nan => false
  | .ninf, _ => true
  | _, .inf => true
  | .inf, _ => false
  | _, .ninf => false
  | .finite a, .finite b => decide (a ≤ b)

/-- Python `a < b` on floats: `false` whenever either side is `nan`. -/
def PyFloat.lt : PyFloat → PyFloat → Bool
  | .nan, _ => false
  | _, .nan => false
  | .inf, _ => false
  | _, .inf => true
  | _, .ninf => false
  | .ninf, _ => true
  | .finite a, .finite b => decide (a < b)

/-- Python `x == 0` on floats: `nan` and the infinities compare unequal to `0`. -/
def PyFloat.eqZero : PyFloat → Bool
  | .finite q => decide (q = 0)
  | _ => false

/-- Model of a raw JSON/Python scalar reaching the engine. -/
inductive RawValue where
  | null
  | num (f : PyFloat)
  | bool (b : Bool)
  | str (s : String)
  | other
deriving DecidableEq, Repr

/-- ASCII whitespace stripped by Python `str.strip()`. -/
def isPySpace (c : Char) : Bool :=
  c = ' ' ∨ c = '\t' ∨ c = '\n' ∨ c = '\r' ∨ c = '\x0b' ∨ c = '\x0c'

/-- Python `str.strip()` on the character list (ASCII whitespace). -/
def stripChars (l : List Char) : List Char :=
  ((l.dropWhile isPySpace).reverse.dropWhile isPySpace).reverse

/-- Python `str.replace(c, "")`: delete every occurrence of the character. -/
def removeChar (c : Char) (l : List Char) : List Char :=
  l.filter (fun d => d ≠ c)

/-- Python `str.strip()` as a `String` operation. -/
def pyStrip (s : String) : String := ⟨stripChars s.toList⟩

/-- Numeric value of an ASCII digit. -/
def digitVal (c : Char) : Nat := c.toNat - 48

/-- Consume a run of digits with single underscores allowed between digits
(Python numeric-literal `digitpart`); returns accumulated value, number of
digits consumed, and the unconsumed remainder.  Recursion is on a fuel
counter (each step consumes at least one character, so `l.length` fuel is
always enough) to keep the function kernel-reducible. -/
def digRun (fuel : Nat) (l : List Char) (acc n : Nat) : Nat × Nat × List Char :=
  match fuel, l with
  | _, [] => (acc, n, [])
  | 0, l => (acc, n, l)
  | fuel + 1, c :: cs =>
    if c.isDigit then digRun fuel cs (acc * 10 + digitVal c) (n + 1)
    else if c = '_' then
      match cs with
      | d :: cs2 =>
        if d.isDigit then digRun fuel cs2 (acc * 10 + digitVal d) (n + 1) else (acc, n, c :: cs)
      | [] => (acc, n, c :: cs)
    else (acc, n, c :: cs)

/-- A `digitpart`: at least one digit; value, digit count, and remainder. -/
def parseDigits (l : List Char) : Option (Nat × Nat × List Char) :=
  match digRun l.length l 0 0 with
  | (v, n, r) => if n = 0 then none else some (v, n, r)

/-- The `number` production of Python float literals:
`digitpart ["." [digitpart]] | "." digitpart`; returns the exact rational
value and the remainder. -/
def parseNumber (l : List Char) : Option (ℚ × List Char) :=
  match parseDigits l with
  | some (iv, _, r) =>
    match r with
    | '.' :: r2 =>
      match parseDigits r2 with
      | some (fv, fn, r3) => some ((iv : ℚ) + (fv : ℚ) / ((10 : ℚ) ^ fn), r3)
      | none => some ((iv : ℚ), r2)
    | _ => some ((iv : ℚ), r)
  | none =>
    match l with
    | '.' :: r2 =>
      match parseDigits r2 with
      | some (fv, fn, r3) => some ((fv : ℚ) / ((10 : ℚ) ^ fn), r3)
      | none => none
    | _ => none

/-- The optional exponent of a Python float literal; `some (0, l)` when no
exponent marker is present, `none` when a marker is present but malformed. -/
def parseExponent (l : List Char) : Option (Int × List Char) :=
  match l with
  | [] => some (0, [])
  | c :: r =>
    if c = 'e' ∨ c = 'E' then
      match r with
      | '+' :: t =>
        match parseDigits t with
        | some (ev, _, r3) => some ((ev : Int), r3)
        | none => none
      | '-' :: t =>
        match parseDigits t with
        | some (ev, _, r3) => some (-(ev : Int), r3)
        | none => none
      | _ =>
        match parseDigits r with
        | some (ev, _, r3) => some ((ev : Int), r3)
        | none => none
    else some (0, c :: r)

/-- Scale a rational by a power of ten (exponent application). -/
def scalePow10 (m : ℚ) (e : Int) : ℚ :=
  if 0 ≤ e then m * (10 : ℚ) ^ e.toNat else m / (10 : ℚ) ^ (-e).toNat

/-- Model of Python's builtin `float(str)` on a character list: optional
sign, then case-insensitive `inf`/`infinity`/`nan`, or a number with
optional exponent; the whole input must be consumed.  `none` models
`ValueError`. -/
def parseFloatChars (l : List Char) : Option PyFloat :=
  let signRest : Bool × List Char :=
    match l with
    | '+' :: t => (false, t)
    | '-' :: t => (true, t)
    | _ => (false, l)
  match signRest with
  | (neg, l1) =>
    let low := l1.map Char.toLower
    if low = "infinity".toList ∨ low = "inf".toList then
      some (if neg then .ninf else .inf)
    else if low = "nan".toList then some .nan
    else
      match parseNumber l1 with
      | some (m, r) =>
        match parseExponent r with
        | some (e, r2) =>
          if r2 = [] then
            some (.finite (if neg then -(scalePow10 m e) else scalePow10 m e))
          else none
        | none => none
      | none => none

/-- Model of Python's builtin `float(str)` (raising = `none`). -/
def pyFloatOfString (s : String) : Option PyFloat := parseFloatChars s.toList

/-- `_to_float` (source lines 23-40): coerce a raw scalar to float-or-None.
`None` → `None`; numbers (bools excluded) → `None` if `nan` else the value;
strings → strip, `None` if blank, else delete spaces and commas and attempt
a float parse, `None` on failure; anything else → `None`. -/
def _to_float : RawValue → Option PyFloat
  | .null => none
  | .num f => if f.isNaN then none else some f
  | .bool _ => none
  | .str x =>
    let s := stripChars x.toList
    if s = [] then none
    else parseFloatChars (removeChar ',' (removeChar ' ' s))
  | .other => none

/-- `_abs_tol_pass` (source lines 43-49): pass if within absolute tolerance,
else fail on zero base, else pass if within percentage-of-base tolerance. -/
def _abs_tol_pass (delta abs_tol pct_tol base : PyFloat) : Bool :=
  if delta.abs.le abs_tol then true
  else if base.eqZero then false
  else delta.abs.le (base.abs.mul pct_tol)

/-- Python `str(x)` for the scalars the parser reads as identifiers.  The
decimal rendering of numbers is idealized (`q.num ++ ".0"` style for
integral values); downstream code relies only on such renderings never
being blank, which holds for every CPython rendering of these values. -/
def pyFloatRepr : PyFloat → String
  | .nan => "nan"
  | .inf => "inf"
  | .ninf => "-inf"
  | .finite q => if q.den = 1 then toString q.num ++ ".0" else toString q.num ++ "/" ++ toString q.den

/-- Python `str(x)` on raw scalars. -/
def pyStr : RawValue → String
  | .null => "None"
  | .num f => pyFloatRepr f
  | .bool true => "True"
  | .bool false => "False"
  | .str s => s
  | .other => "<object>"

/-- Lookup in an association list modelling a CPython dict (keys unique by
construction of `dinsert`). -/
def dget {α : Type} (l : List (String × α)) (k : String) : Option α :=
  match l with
  | [] => none
  | (k2, v) :: t => if k2 = k then some v else dget t k

/-- CPython dict assignment `d[k] = v`: replace in place if the key exists,
else append at the end (dicts preserve first-insertion order). -/
def dinsert {α : Type} (l : List (String × α)) (k : String) (v : α) : List (String × α) :=
  match l with
  | [] => [(k, v)]
  | (k2, v2) :: t => if k2 = k then (k2, v) :: t else (k2, v2) :: dinsert t k v

/-- A raw sheet row: a dict from column label to raw scalar. -/
abbrev Row := List (String × RawValue)

/-- Python `row.get(k, default)`. -/
def rowGetD (r : Row) (k : String) (d : RawValue) : RawValue := (dget r k).getD d

/-- Parsed balance-sheet line: `{"closing":…, "opening":…, "delta":…}`. -/
structure BSItem where
  closing : Option PyFloat
  opening : Option PyFloat
  delta : Option PyFloat
deriving DecidableEq, Repr

/-- Parsed income-statement / equity line: `{"amount":…}`. -/
structure AmtItem where
  amount : Option PyFloat
deriving DecidableEq, Repr

/-- Per-entity statement model: the `BS`/`IS`/`EQ` sub-dicts (a kind absent
from the Python dict behaves exactly like an empty sub-dict at every use
site, so empty lists are the defaults). -/
structure EntityStatements where
  BS : List (String × BSItem) := []
  IS : List (String × AmtItem) := []
  EQ : List (String × AmtItem) := []
deriving DecidableEq, Repr

/-- The parsed model: entity id → statements, in dict (insertion) order. -/
abbrev Entities := List (String × EntityStatements)

/-- `entities.setdefault(k, {})` followed by an in-place mutation `f` of the
entry. -/
def entUpdate (es : Entities) (k : String) (f : EntityStatements → EntityStatements) :
    Entities :=
  match es with
  | [] => [(k, f {})]
  | (k2, v) :: t => if k2 = k then (k2, f v) :: t else (k2, v) :: entUpdate t k f

/-- The raw dataset: optional self-declared source file and the three
sheets (a missing `sheets` key or sheet behaves as an empty row list). -/
structure Dataset where
  source_file : Option String := none
  BS : List Row := []
  IS : List Row := []
  EQ : List Row := []

/-- Trimmed entity identifier of a balance-sheet row (source line 88). -/
def bsEntity (r : Row) : String := pyStrip (pyStr (rowGetD r "Balance_sheet" (.str "")))

/-- Trimmed line identifier of a row (source lines 89/108/121). -/
def rowLineId (r : Row) : String := pyStrip (pyStr (rowGetD r "Unnamed: 1" (.str "")))

/-- Trimmed entity identifier of an income-statement row (source line 107). -/
def isEntity (r : Row) : String := pyStrip (pyStr (rowGetD r "Income statement" (.str "")))

/-- Trimmed entity identifier of an equity row (source line 120). -/
def eqEntity (r : Row) : String := pyStrip (pyStr (rowGetD r "Equity" (.str "")))

/-- The `BSItem` a balance-sheet row normalizes to (source lines 90-92). -/
def bsItemOf (r : Row) : BSItem :=
  { closing := _to_float (rowGetD r "Unnamed: 2" .null)
    opening := _to_float (rowGetD r "Unnamed: 3" .null)
    delta := _to_float (rowGetD r "Unnamed: 4" .null) }

/-- The `AmtItem` an income-statement or equity row normalizes to
(source lines 109/122). -/
def amtItemOf (r : Row) : AmtItem :=
  { amount := _to_float (rowGetD r "Unnamed: 2" .null) }

/-- One iteration of the BS row loop (source lines 87-102). -/
def stepBS (es : Entities) (r : Row) : Entities :=
  if bsEntity r = "" ∨ rowLineId r = "" then es
  else entUpdate es (bsEntity r) (fun st => { st with BS := dinsert st.BS (rowLineId r) (bsItemOf r) })

/-- One iteration of the IS row loop (source lines 106-115). -/
def stepIS (es : Entities) (r : Row) : Entities :=
  if isEntity r = "" ∨ rowLineId r = "" then es
  else entUpdate es (isEntity r) (fun st => { st with IS := dinsert st.IS (rowLineId r) (amtItemOf r) })

/-- One iteration of the EQ row loop (source lines 119-128). -/
def stepEQ (es : Entities) (r : Row) : Entities :=
  if eqEntity r = "" ∨ rowLineId r = "" then es
  else entUpdate es (eqEntity r) (fun st => { st with EQ := dinsert st.EQ (rowLineId r) (amtItemOf r) })

/-- `_parse_dataset` (source lines 73-130): fold the BS rows, then the IS
rows, then the EQ rows into the per-entity model. -/
def _parse_dataset (ds : Dataset) : Entities :=
  ds.EQ.foldl stepEQ (ds.IS.foldl stepIS (ds.BS.foldl stepBS []))

/-- A finding (source dataclass `Signal`, lines 52-59); every detail value
attached by the five checks is a float. -/
structure Signal where
  type : String
  severity : String
  entity_id : String
  statement : String
  message : String
  details : List (String × PyFloat)
deriving DecidableEq, Repr

/-- An entry of the rule pack: a dict with an optional `signal_type` key
and optional metadata fields. -/
structure RuleEntry where
  signal_type : Option String := none
  risk_level : Option String := none
  escalation : Option String := none
  rule_id : Option String := none
deriving DecidableEq, Repr

/-- The rule pack: `{rules: [...]}` (missing key behaves as empty list). -/
structure RulePack where
  rules : List RuleEntry := []

/-- `_rule_lookup` (source lines 133-139): index rule entries by
`signal_type`; the Python guard `if st:` skips entries whose `signal_type`
is missing or falsy (empty string). -/
def _rule_lookup (rp : RulePack) : List (String × RuleEntry) :=
  rp.rules.foldl
    (fun out r =>
      match r.signal_type with
      | some st => if st = "" then out else dinsert out st r
      | none => out)
    []

/-- `_severity_default` (source lines 142-146).  Defined in the source but
never called by `run`; kept for completeness. -/
def _severity_default (signal_type : String) : String :=
  if signal_type.startsWith "FIN." ∧ "CRITICAL".toList <:+: signal_type.toList then "CRITICAL"
  else "MEDIUM"

/-- The metadata triple `_apply_rules` attaches (source lines 149-155). -/
structure RuleApplied where
  risk_level : String
  escalation : String
  rule_id : String
deriving DecidableEq, Repr

/-- `_apply_rules` (source lines 149-155): look the signal type up in the
rule map (empty-dict default) and read the three fields with
`"UNSPECIFIED"` defaults. -/
def _apply_rules (s : Signal) (rule_map : List (String × RuleEntry)) : RuleApplied :=
  let r := (dget rule_map s.type).getD {}
  { risk_level := r.risk_level.getD "UNSPECIFIED"
    escalation := r.escalation.getD "UNSPECIFIED"
    rule_id := r.rule_id.getD "UNSPECIFIED" }

/-- `bs.get(k, {}).get("closing")` as a raw value fed back to `_to_float`
(the stored normalized value is a float or `None`). -/
def getClosing (bs : List (String × BSItem)) (k : String) : RawValue :=
  match dget bs k with
  | some it => match it.closing with | some f => .num f | none => .null
  | none => .null

/-- `bs.get(k, {}).get("delta")` as a raw value. -/
def getDelta (bs : List (String × BSItem)) (k : String) : RawValue :=
  match dget bs k with
  | some it => match it.delta with | some f => .num f | none => .null
  | none => .null

/-- `m.get(k, {}).get("amount")` as a raw value. -/
def getAmt (m : List (String × AmtItem)) (k : String) : RawValue :=
  match dget m k with
  | some it => match it.amount with | some f => .num f | none => .null
  | none => .null

/-- `assets` (source line 186). -/
def assetsOf (st : EntityStatements) : Option PyFloat :=
  _to_float (getClosing st.BS "AssetsTotal")

/-- `le_total` (source line 187).  (`equity_total`, line 188, is read by the
source but never used afterwards.) -/
def leTotalOf (st : EntityStatements) : Option PyFloat :=
  _to_float (getClosing st.BS "LiabilitiesAndEquityTotal")

/-- `opening` (source line 215). -/
def openingOf (st : EntityStatements) : Option PyFloat :=
  _to_float (getAmt st.EQ "EquityOpening")

/-- `closing` (source line 216). -/
def closingOf (st : EntityStatements) : Option PyFloat :=
  _to_float (getAmt st.EQ "EquityClosing")

/-- `profit` (source lines 219-221): `ProfitForTheYear`, falling back to
`ProfitAfterTax` when `None`. -/
def profitOf (st : EntityStatements) : Option PyFloat :=
  match _to_float (getAmt st.EQ "ProfitForTheYear") with
  | some v => some v
  | none => _to_float (getAmt st.EQ "ProfitAfterTax")

/-- `dividends` (source lines 224-226): `Dividends`, falling back to
`DividendsPaid` when `None`. -/
def dividendsOf (st : EntityStatements) : Option PyFloat :=
  match _to_float (getAmt st.EQ "Dividends") with
  | some v => some v
  | none => _to_float (getAmt st.EQ "DividendsPaid")

/-- `other` (source lines 228-230): `OtherEquityMovements`, `0.0` when
`None`. -/
def otherOf (st : EntityStatements) : PyFloat :=
  (_to_float (getAmt st.EQ "OtherEquityMovements")).getD (.finite 0)

/-- Balance-sheet identity check (source lines 186-212). -/
def bsCheck (abs_tol pct_tol : PyFloat) (entity_id : String) (st : EntityStatements) :
    List Signal :=
  match assetsOf st, leTotalOf st with
  | some assets, some le_total =>
    if _abs_tol_pass (assets.sub le_total) abs_tol pct_tol le_total then []
    else
      [{ type := "FIN.BS.EQUATION_BREAK"
         severity := "CRITICAL"
         entity_id := entity_id
         statement := "BS"
         message := "Balance sheet equation fails: AssetsTotal != LiabilitiesAndEquityTotal beyond tolerance."
         details := [("AssetsTotal", assets), ("LiabilitiesAndEquityTotal", le_total),
                     ("delta", assets.sub le_total), ("tolerance_abs", abs_tol), ("tolerance_pct", pct_tol)] }]
  | _, _ => []

/-- Equity roll-forward check (source lines 214-259). -/
def eqCheck (abs_tol pct_tol : PyFloat) (entity_id : String) (st : EntityStatements) :
    List Signal :=
  match openingOf st, closingOf st with
  | some opening, some closing =>
    if _abs_tol_pass
        ((((opening.add ((profitOf st).getD (.finite 0))).sub
            ((dividendsOf st).getD (.finite 0))).add (otherOf st)).sub closing)
        abs_tol pct_tol closing then []
    else
      [{ type := "FIN.EQ.ROLLFORWARD_BREAK"
         severity := "CRITICAL"
         entity_id := entity_id
         statement := "EQ"
         message := "Equity roll-forward fails beyond tolerance."
         details := [("EquityOpening", opening), ("Profit", (profitOf st).getD (.finite 0)),
                     ("Dividends", (dividendsOf st).getD (.finite 0)),
                     ("OtherEquityMovements", otherOf st),
                     ("ExpectedEquityClosing",
                       ((opening.add ((profitOf st).getD (.finite 0))).sub
                         ((dividendsOf st).getD (.finite 0))).add (otherOf st)),
                     ("EquityClosing", closing),
                     ("delta",
                       (((opening.add ((profitOf st).getD (.finite 0))).sub
                         ((dividendsOf st).getD (.finite 0))).add (otherOf st)).sub closing),
                     ("tolerance_abs", abs_tol), ("tolerance_pct", pct_tol)] }]
  | _, _ => []

/-- Dividend plausibility check (source lines 261-279). -/
def divCheck (abs_tol : PyFloat) (entity_id : String) (st : EntityStatements) :
    List Signal :=
  match closingOf st, dividendsOf st with
  | some closing, some dividends =>
    if (closing.abs.add abs_tol).lt dividends.abs then
      [{ type := "FIN.DIV.LEGALITY_IMPOSSIBLE"
         severity := "CRITICAL"
         entity_id := entity_id
         statement := "EQ"
         message := "Dividend appears structurally impossible relative to closing equity capacity (pilot test)."
         details := [("Dividends", dividends), ("EquityClosing", closing),
                     ("threshold", closing.abs.add abs_tol), ("tolerance_abs", abs_tol)] }]
    else []
  | _, _ => []

/-- Income/receivable counterpart heuristic (source lines 281-298). -/
def cpCheck (entity_id : String) (st : EntityStatements) : List Signal :=
  match _to_float (getAmt st.IS "ExtraordinaryIncome"),
        _to_float (getDelta st.BS "ReceivablesMovement") with
  | some ei, some rm =>
    if ((PyFloat.finite 1000000).lt ei.abs) && (rm.abs.lt (ei.abs.mul (.finite (1 / 10)))) then
      [{ type := "FIN.DEBIT_CREDIT.MISSING_COUNTERPART"
         severity := "CRITICAL"
         entity_id := entity_id
         statement := "IS/BS"
         message := "Large income event without corresponding receivable movement (heuristic)."
         details := [("ExtraordinaryIncome", ei), ("ReceivablesMovement", rm)] }]
    else []
  | _, _ => []

/-- Impairment materiality heuristic (source lines 300-316). -/
def impCheck (entity_id : String) (st : EntityStatements) : List Signal :=
  match (match _to_float (getAmt st.IS "Impairment_Investments") with
         | some v => some v
         | none => _to_float (getAmt st.IS "WriteDownsInvestments")) with
  | some impairment =>
    if (PyFloat.finite 1000000).le impairment.abs then
      [{ type := "FIN.WRITEDOWN.CAUSALITY_BREAK"
         severity := "HIGH"
         entity_id := entity_id
         statement := "IS/BS"
         message := "Large impairment/write-down triggers structural review."
         details := [("Impairment", impairment)] }]
    else []
  | none => []

/-- The five checks run for one entity, findings in source emission order
(source lines 177-316). -/
def checkEntity (abs_tol pct_tol : PyFloat) (entity_id : String) (st : EntityStatements) :
    List Signal :=
  bsCheck abs_tol pct_tol entity_id st ++ eqCheck abs_tol pct_tol entity_id st ++
    divCheck abs_tol entity_id st ++ cpCheck entity_id st ++ impCheck entity_id st

/-- All raw findings of a run, entities processed in model (dict) order. -/
def runSignals (abs_tol pct_tol : PyFloat) (ents : Entities) : List Signal :=
  ents.foldl (fun acc e => acc ++ checkEntity abs_tol pct_tol e.1 e.2) []

/-- A signal joined with rule-pack metadata (source lines 319-334). -/
structure AnnSignal where
  type : String
  severity : String
  entity_id : String
  statement : String
  message : String
  details : List (String × PyFloat)
  risk_level : String
  escalation : String
  rule_id : String
deriving DecidableEq, Repr

/-- The annotation loop over emitted signals (source lines 319-334). -/
def annotateSignals (rule_map : List (String × RuleEntry)) (sigs : List Signal) :
    List AnnSignal :=
  sigs.map fun s =>
    let ra := _apply_rules s rule_map
    { type := s.type, severity := s.severity, entity_id := s.entity_id
      statement := s.statement, message := s.message, details := s.details
      risk_level := ra.risk_level, escalation := ra.escalation, rule_id := ra.rule_id }

/-- The constraint pack's `tolerance_defaults` (missing keys behave as the
source defaults 1000 and 0.001; the double 0.001 is idealized as 1/1000). -/
structure ConstraintPack where
  absolute : Option PyFloat := none
  percentage : Option PyFloat := none

/-- The structured run report (source lines 336-341). -/
structure RunReport where
  report_id : String
  input_dataset : String
  signals_count : Nat
  signals : List AnnSignal
deriving DecidableEq, Repr

/-- The core of `run` (source lines 158-341), file I/O stripped: parse the
dataset, evaluate every check for every entity, annotate with rule-pack
metadata, and assemble the report. -/
def run (ds : Dataset) (cp : ConstraintPack) (rp : RulePack) : RunReport :=
  let rule_map := _rule_lookup rp
  let entities := _parse_dataset ds
  let abs_default := cp.absolute.getD (.finite 1000)
  let pct_default := cp.percentage.getD (.finite (1 / 1000))
  let out_signals := annotateSignals rule_map (runSignals abs_default pct_default entities)
  { report_id := "sta.financial.run_report.v0_1"
    input_dataset := ds.source_file.getD "STA_Pilot_Financials_v0_1.json"
    signals_count := out_signals.length
    signals := out_signals }

/-- The `(entity, line id)` key under which a balance-sheet row is stored,
`none` when the row is discarded (blank entity or line id). -/
def keyBS (r : Row) : Option (String × String) :=
  if bsEntity r = "" ∨ rowLineId r = "" then none else some (bsEntity r, rowLineId r)

/-- The storage key of an income-statement row (`none` = discarded). -/
def keyIS (r : Row) : Option (String × String) :=
  if isEntity r = "" ∨ rowLineId r = "" then none else some (isEntity r, rowLineId r)

/-- The storage key of an equity row (`none` = discarded). -/
def keyEQ (r : Row) : Option (String × String) :=
  if eqEntity r = "" ∨ rowLineId r = "" then none else some (eqEntity r, rowLineId r)

/-- The entity a balance-sheet row contributes (`none` = discarded row). -/
def entKeyBS (r : Row) : Option String := (keyBS r).map Prod.fst

/-- The entity an income-statement row contributes (`none` = discarded row). -/
def entKeyIS (r : Row) : Option String := (keyIS r).map Prod.fst

/-- The entity an equity row contributes (`none` = discarded row). -/
def entKeyEQ (r : Row) : Option String := (keyEQ r).map Prod.fst

/-- The stored balance-sheet line item of entity `e`, line `l`. -/
def lookupBS (es : Entities) (e l : String) : Option BSItem :=
  (dget es e).bind fun st => dget st.BS l

/-- The stored income-statement line item of entity `e`, line `l`. -/
def lookupIS (es : Entities) (e l : String) : Option AmtItem :=
  (dget es e).bind fun st => dget st.IS l

/-- The stored equity line item of entity `e`, line `l`. -/
def lookupEQ (es : Entities) (e l : String) : Option AmtItem :=
  (dget es e).bind fun st => dget st.EQ l

/-- The entity identifiers of the parsed model, in model order. -/
def dictKeys (es : Entities) : List String := es.map Prod.fst

/-- Append an identifier unless already present (first-occurrence order). -/
def keyInsert (ks : List String) (k : String) : List String :=
  if k ∈ ks then ks else ks ++ [k]

/-- Modelled from the spec: entity discovery order is first appearance of
each kept entity scanning all BS rows, then all IS rows, then all EQ rows. -/
def entityOrderSpec (ds : Dataset) : List String :=
  (ds.BS.filterMap entKeyBS ++ ds.IS.filterMap entKeyIS ++ ds.EQ.filterMap entKeyEQ).foldl
    keyInsert []

/-- Modelled from the spec: the rule entry whose `signal_type` exactly
equals `t`, the last such entry in list order winning. -/
def specLastRule (rules : List RuleEntry) (t : String) : Option RuleEntry :=
  rules.foldl (fun acc r => if r.signal_type = some t then some r else acc) none

/-- The rule-independent part of an annotated signal. -/
def baseOf (s : AnnSignal) : Signal :=
  { type := s.type, severity := s.severity, entity_id := s.entity_id
    statement := s.statement, message := s.message, details := s.details }

/-- Modelled from the spec: severity as a fixed function of signal type. -/
def sevOfType (t : String) : String :=
  if t = "FIN.WRITEDOWN.CAUSALITY_BREAK" then "HIGH" else "CRITICAL"

/-- The five signal types the engine can emit. -/
def fiveSignalTypes : List String :=
  ["FIN.BS.EQUATION_BREAK", "FIN.EQ.ROLLFORWARD_BREAK", "FIN.DIV.LEGALITY_IMPOSSIBLE",
   "FIN.DEBIT_CREDIT.MISSING_COUNTERPART", "FIN.WRITEDOWN.CAUSALITY_BREAK"]

/-- A sample entity exercising Scenario B of the spec: balance sheet with
`AssetsTotal.closing = 1,000,000` and `LiabilitiesAndEquityTotal.closing =
1,050,000`. -/
def sampleBSEntity : EntityStatements :=
  { BS := [("AssetsTotal", { closing := some (.finite 1000000), opening := none, delta := none }),
           ("LiabilitiesAndEquityTotal",
            { closing := some (.finite 1050000), opening := none, delta := none })] }

/-- A sample entity exercising Scenario C of the spec: equity sheet with
opening 100,000, profit 20,000 (via `ProfitForTheYear`), dividends 5,000
(via `DividendsPaid`), closing 115,000, no other movements. -/
def sampleEQEntity : EntityStatements :=
  { EQ := [("EquityOpening", { amount := some (.finite 100000) }),
           ("ProfitForTheYear", { amount := some (.finite 20000) }),
           ("DividendsPaid", { amount := some (.finite 5000) }),
           ("EquityClosing", { amount := some (.finite 115000) })] }

/-- A sample entity exercising Scenario D of the spec: `Dividends = 200,000`,
`EquityClosing = 50,000`, and no `EquityOpening` (so the roll-forward check
itself is skipped). -/
def sampleDIVEntity : EntityStatements :=
  { EQ := [("Dividends", { amount := some (.finite 200000) }),
           ("EquityClosing", { amount := some (.finite 50000) })] }

/-- A sample rule pack with two entries for the same signal type: the first
carries `risk_level`, the second (which must win wholesale) only `rule_id`. -/
def sampleRulePack : RulePack :=
  { rules := [{ signal_type := some "FIN.BS.EQUATION_BREAK", risk_level := some "R1",
                escalation := some "E1", rule_id := some "ID1" },
              { signal_type := some "FIN.BS.EQUATION_BREAK", rule_id := some "ID2" }] }

/-- A sample signal for exercising rule annotation. -/
def sampleSignal : Signal :=
  { type := "FIN.BS.EQUATION_BREAK", severity := "CRITICAL", entity_id := "E1"
    statement := "BS", message := "m", details := [] }

/-- A sample dataset: one kept BS row for entity `A`, one blank-line-id BS
row, one kept EQ row for entity `B` (an EQ-only entity). -/
def sampleDataset : Dataset :=
  { BS := [[("Balance_sheet", .str "A"), ("Unnamed: 1", .str "AssetsTotal"),
            ("Unnamed: 2", .str "1 000")],
           [("Balance_sheet", .str "A"), ("Unnamed: 1", .str "  "),
            ("Unnamed: 2", .str "7")]]
    EQ := [[("Equity", .str "B"), ("Unnamed: 1", .str "EquityClosing"),
            ("Unnamed: 2", .num (.finite 5))]] }

section
attribute [local semireducible] Rat.add Rat.mul Rat.sub Rat.inv Rat.ofScientific

@[simp] theorem PyFloat.isNaN_finite (q : ℚ) : (PyFloat.finite q).isNaN = false := rfl

@[simp] theorem PyFloat.abs_finite (q : ℚ) : (PyFloat.finite q).abs = .finite |q| := rfl

@[simp] theorem PyFloat.neg_finite (q : ℚ) : (PyFloat.finite q).neg = .finite (-q) := rfl

@[simp] theorem PyFloat.add_finite (a b : ℚ) :
    (PyFloat.finite a).add (.finite b) = .finite (a + b) := rfl

@[simp] theorem PyFloat.sub_finite (a b : ℚ) :
    (PyFloat.finite a).sub (.finite b) = .finite (a - b) := by
  simp [PyFloat.sub, sub_eq_add_neg]

@[simp] theorem PyFloat.mul_finite (a b : ℚ) :
    (PyFloat.finite a).mul (.finite b) = .finite (a * b) := rfl

@[simp] theorem PyFloat.le_finite (a b : ℚ) :
    (PyFloat.finite a).le (.finite b) = decide (a ≤ b) := rfl

@[simp] theorem PyFloat.lt_finite (a b : ℚ) :
    (PyFloat.finite a).lt (.finite b) = decide (a < b) := rfl

@[simp] theorem PyFloat.eqZero_finite (q : ℚ) :
    (PyFloat.finite q).eqZero = decide (q = 0) := rfl

/-- C3: the Tolerance Evaluator `withinTolerance(delta, absTol, pctTol, base)`
returns true iff `|delta| ≤ absTol` or (`base ≠ 0` and `|delta| ≤ |base| * pctTol`);
and the three quoted evaluations hold: `withinTolerance(500, 1000, 0.01, 10000) = true`,
`withinTolerance(1500, 1000, 0.2, 10000) = true`, `withinTolerance(1500, 1000, 0.01, 0) = false`. -/
theorem abs_tol_pass_spec :
    (∀ d a p b : ℚ,
      _abs_tol_pass (.finite d) (.finite a) (.finite p) (.finite b) = true ↔
        (|d| ≤ a ∨ (b ≠ 0 ∧ |d| ≤ |b| * p)))
    ∧ _abs_tol_pass (.finite 500) (.finite 1000) (.finite (1 / 100)) (.finite 10000) = true
    ∧ _abs_tol_pass (.finite 1500) (.finite 1000) (.finite (2 / 10)) (.finite 10000) = true
    ∧ _abs_tol_pass (.finite 1500) (.finite 1000) (.finite (1 / 100)) (.finite 0) = false := by
  refine ⟨?_, by decide, by decide, by decide⟩
  intro d a p b
  unfold _abs_tol_pass
  by_cases h1 : |d| ≤ a
  · simp [h1]
  · by_cases h2 : b = 0
    · simp [h1, h2]
    · simp [h1, h2]

/-- C3 witness: the iff instantiated at `delta = 1500, absTol = 1000,
pctTol = 0.2, base = 10000` (relative branch passes). -/
theorem abs_tol_pass_spec_witness :
    _abs_tol_pass (.finite 1500) (.finite 1000) (.finite (2 / 10)) (.finite 10000) = true ↔
      (|(1500 : ℚ)| ≤ 1000 ∨ ((10000 : ℚ) ≠ 0 ∧ |(1500 : ℚ)| ≤ |(10000 : ℚ)| * (2 / 10))) :=
  abs_tol_pass_spec.1 1500 1000 (2 / 10) 10000

/-- C1 (code-bug exhibit): on the string input `"nan"` the Value Normalizer
returns the float `nan` — not `absent` and not a non-NaN float — because
Python's `float("nan")` parses successfully; the numeric branch guards
`math.isnan` but the string branch does not. -/
theorem to_float_nan_string :
    _to_float (.str "nan") = some .nan ∧ PyFloat.nan.isNaN = true := by
  constructor
  · decide
  · rfl

/-- C10: the Value Normalizer removes every space and every comma anywhere
in the trimmed string before the float parse, so `"1,2,3"` normalizes to
`123.0` and `"1 0 0"` normalizes to `100.0`. -/
theorem to_float_strips_all_separators :
    (∀ s : String, stripChars s.toList ≠ [] →
      _to_float (.str s) = parseFloatChars (removeChar ',' (removeChar ' ' (stripChars s.toList))))
    ∧ _to_float (.str "1,2,3") = some (.finite 123)
    ∧ _to_float (.str "1 0 0") = some (.finite 100) := by
  refine ⟨?_, by decide, by decide⟩
  intro s h
  have h2 : stripChars s.data ≠ [] := h
  simp [_to_float, h2]

/-- C10 witness: the general separator-stripping equation instantiated at
`" 1,2 3,4 "`, whose stripped form is nonempty. -/
theorem to_float_strips_all_separators_witness :
    stripChars " 1,2 3,4 ".toList ≠ [] ∧
      _to_float (.str " 1,2 3,4 ") =
        parseFloatChars (removeChar ',' (removeChar ' ' (stripChars " 1,2 3,4 ".toList))) :=
  ⟨by decide, to_float_strips_all_separators.1 " 1,2 3,4 " (by decide)⟩

end

theorem filter_sig_singleton (x : Signal) (T : String) :
    [x].filter (fun s => s.type == T) = if x.type = T then [x] else [] := by
  by_cases h : x.type = T <;> simp [List.filter_cons, List.filter_nil, h]

theorem bsCheck_filter (a p : PyFloat) (e T : String) (st : EntityStatements) :
    (bsCheck a p e st).filter (fun s => s.type == T) =
      if "FIN.BS.EQUATION_BREAK" = T then bsCheck a p e st else [] := by
  unfold bsCheck
  split
  · split
    · simp
    · rw [filter_sig_singleton]
  · simp

theorem eqCheck_filter (a p : PyFloat) (e T : String) (st : EntityStatements) :
    (eqCheck a p e st).filter (fun s => s.type == T) =
      if "FIN.EQ.ROLLFORWARD_BREAK" = T then eqCheck a p e st else [] := by
  unfold eqCheck
  split
  · split
    · simp
    · rw [filter_sig_singleton]
  · simp

theorem divCheck_filter (a : PyFloat) (e T : String) (st : EntityStatements) :
    (divCheck a e st).filter (fun s => s.type == T) =
      if "FIN.DIV.LEGALITY_IMPOSSIBLE" = T then divCheck a e st else [] := by
  unfold divCheck
  split
  · split
    · rw [filter_sig_singleton]
    · simp
  · simp

theorem cpCheck_filter (e T : String) (st : EntityStatements) :
    (cpCheck e st).filter (fun s => s.type == T) =
      if "FIN.DEBIT_CREDIT.MISSING_COUNTERPART" = T then cpCheck e st else [] := by
  unfold cpCheck
  split
  · split
    · rw [filter_sig_singleton]
    · simp
  · simp

theorem impCheck_filter (e T : String) (st : EntityStatements) :
    (impCheck e st).filter (fun s => s.type == T) =
      if "FIN.WRITEDOWN.CAUSALITY_BREAK" = T then impCheck e st else [] := by
  unfold impCheck
  split
  · split
    · rw [filter_sig_singleton]
    · simp
  · simp

theorem checkEntity_filter_bs (a p : PyFloat) (e : String) (st : EntityStatements) :
    (checkEntity a p e st).filter (fun s => s.type == "FIN.BS.EQUATION_BREAK") =
      bsCheck a p e st := by
  unfold checkEntity
  simp [List.filter_append, bsCheck_filter, eqCheck_filter, divCheck_filter, cpCheck_filter,
    impCheck_filter]

theorem checkEntity_filter_eq (a p : PyFloat) (e : String) (st : EntityStatements) :
    (checkEntity a p e st).filter (fun s => s.type == "FIN.EQ.ROLLFORWARD_BREAK") =
      eqCheck a p e st := by
  unfold checkEntity
  simp [List.filter_append, bsCheck_filter, eqCheck_filter, divCheck_filter, cpCheck_filter,
    impCheck_filter]

theorem checkEntity_filter_div (a p : PyFloat) (e : String) (st : EntityStatements) :
    (checkEntity a p e st).filter (fun s => s.type == "FIN.DIV.LEGALITY_IMPOSSIBLE") =
      divCheck a e st := by
  unfold checkEntity
  simp [List.filter_append, bsCheck_filter, eqCheck_filter, divCheck_filter, cpCheck_filter,
    impCheck_filter]

/-- C4: per entity, exactly one `FIN.BS.EQUATION_BREAK` signal of severity
CRITICAL is emitted iff both `BS["AssetsTotal"].closing` and
`BS["LiabilitiesAndEquityTotal"].closing` are present and
`withinTolerance(assets - leTotal, absTol, pctTol, base = leTotal)` fails;
if either value is absent, no such signal is emitted. -/
theorem bs_equation_break_spec :
    (∀ (atol ptol : PyFloat) (eid : String) (st : EntityStatements) (a l : ℚ),
      assetsOf st = some (.finite a) → leTotalOf st = some (.finite l) →
      (checkEntity atol ptol eid st).filter (fun s => s.type == "FIN.BS.EQUATION_BREAK") =
        if _abs_tol_pass (.finite (a - l)) atol ptol (.finite l) then []
        else
          [{ type := "FIN.BS.EQUATION_BREAK", severity := "CRITICAL", entity_id := eid,
             statement := "BS",
             message := "Balance sheet equation fails: AssetsTotal != LiabilitiesAndEquityTotal beyond tolerance.",
             details := [("AssetsTotal", .finite a), ("LiabilitiesAndEquityTotal", .finite l),
                         ("delta", .finite (a - l)), ("tolerance_abs", atol),
                         ("tolerance_pct", ptol)] }])
    ∧ (∀ (atol ptol : PyFloat) (eid : String) (st : EntityStatements),
      assetsOf st = none ∨ leTotalOf st = none →
      (checkEntity atol ptol eid st).filter (fun s => s.type == "FIN.BS.EQUATION_BREAK") = []) := by
  constructor
  · intro atol ptol eid st a l h1 h2
    rw [checkEntity_filter_bs]
    unfold bsCheck
    rw [h1, h2]
    simp
  · intro atol ptol eid st h
    rw [checkEntity_filter_bs]
    unfold bsCheck
    rcases h1 : assetsOf st with _ | x <;> rcases h2 : leTotalOf st with _ | y <;> simp_all

/-- C4 witness: Scenario B — assets 1,000,000 against liabilities-and-equity
1,050,000 under the default tolerances. -/
theorem bs_equation_break_spec_witness :
    assetsOf sampleBSEntity = some (.finite 1000000) ∧
      leTotalOf sampleBSEntity = some (.finite 1050000) ∧
      (checkEntity (.finite 1000) (.finite (1 / 1000)) "E1" sampleBSEntity).filter
          (fun s => s.type == "FIN.BS.EQUATION_BREAK") =
        if _abs_tol_pass (.finite ((1000000 : ℚ) - 1050000)) (.finite 1000) (.finite (1 / 1000))
            (.finite 1050000) then []
        else
          [{ type := "FIN.BS.EQUATION_BREAK", severity := "CRITICAL", entity_id := "E1",
             statement := "BS",
             message := "Balance sheet equation fails: AssetsTotal != LiabilitiesAndEquityTotal beyond tolerance.",
             details := [("AssetsTotal", .finite 1000000),
                         ("LiabilitiesAndEquityTotal", .finite 1050000),
                         ("delta", .finite ((1000000 : ℚ) - 1050000)), ("tolerance_abs", .finite 1000),
                         ("tolerance_pct", .finite (1 / 1000))] }] :=
  ⟨by decide, by decide,
    bs_equation_break_spec.1 (.finite 1000) (.finite (1 / 1000)) "E1" sampleBSEntity 1000000
      1050000 (by decide) (by decide)⟩

/-- C2: per entity with both `EQ["EquityOpening"]` and `EQ["EquityClosing"]`
amounts present, the roll-forward check resolves profit from
`ProfitForTheYear` falling back to `ProfitAfterTax` (0 when both absent),
dividends from `Dividends` falling back to `DividendsPaid` (0 when both
absent), other from `OtherEquityMovements` (0 when absent), computes
`expected = opening + profit - dividends + other`, `delta = expected -
closing`, and emits exactly one CRITICAL `FIN.EQ.ROLLFORWARD_BREAK` iff
`withinTolerance(delta, absTol, pctTol, base = closing)` fails; when
opening or closing is absent no roll-forward signal is emitted. -/
theorem eq_rollforward_break_spec :
    (∀ (atol ptol : PyFloat) (eid : String) (st : EntityStatements) (o c ot : ℚ)
      (pr dv : Option ℚ),
      openingOf st = some (.finite o) → closingOf st = some (.finite c) →
      profitOf st = pr.map PyFloat.finite → dividendsOf st = dv.map PyFloat.finite →
      otherOf st = .finite ot →
      (checkEntity atol ptol eid st).filter (fun s => s.type == "FIN.EQ.ROLLFORWARD_BREAK") =
        if _abs_tol_pass (.finite (o + pr.getD 0 - dv.getD 0 + ot - c)) atol ptol (.finite c)
        then []
        else
          [{ type := "FIN.EQ.ROLLFORWARD_BREAK", severity := "CRITICAL", entity_id := eid,
             statement := "EQ",
             message := "Equity roll-forward fails beyond tolerance.",
             details := [("EquityOpening", .finite o), ("Profit", .finite (pr.getD 0)),
                         ("Dividends", .finite (dv.getD 0)), ("OtherEquityMovements", .finite ot),
                         ("ExpectedEquityClosing", .finite (o + pr.getD 0 - dv.getD 0 + ot)),
                         ("EquityClosing", .finite c),
                         ("delta", .finite (o + pr.getD 0 - dv.getD 0 + ot - c)),
                         ("tolerance_abs", atol), ("tolerance_pct", ptol)] }])
    ∧ (∀ (atol ptol : PyFloat) (eid : String) (st : EntityStatements),
      openingOf st = none ∨ closingOf st = none →
      (checkEntity atol ptol eid st).filter (fun s => s.type == "FIN.EQ.ROLLFORWARD_BREAK") = []) := by
  constructor
  · intro atol ptol eid st o c ot pr dv h1 h2 hp hd hot
    rw [checkEntity_filter_eq]
    unfold eqCheck
    rw [h1, h2, hp, hd, hot]
    rcases pr with _ | p <;> rcases dv with _ | d <;> simp
  · intro atol ptol eid st h
    rw [checkEntity_filter_eq]
    unfold eqCheck
    rcases h1 : openingOf st with _ | x <;> rcases h2 : closingOf st with _ | y <;> simp_all

/-- C2 witness: Scenario C — opening 100,000, profit 20,000 via
`ProfitForTheYear`, dividends 5,000 via `DividendsPaid`, other movements
absent, closing 115,000, default tolerances. -/
theorem eq_rollforward_break_spec_witness :
    openingOf sampleEQEntity = some (.finite 100000) ∧
      closingOf sampleEQEntity = some (.finite 115000) ∧
      profitOf sampleEQEntity = (some (20000 : ℚ)).map PyFloat.finite ∧
      dividendsOf sampleEQEntity = (some (5000 : ℚ)).map PyFloat.finite ∧
      otherOf sampleEQEntity = .finite 0 ∧
      (checkEntity (.finite 1000) (.finite (1 / 1000)) "E1" sampleEQEntity).filter
          (fun s => s.type == "FIN.EQ.ROLLFORWARD_BREAK") =
        if _abs_tol_pass
            (.finite ((100000 : ℚ) + (some (20000 : ℚ)).getD 0 - (some (5000 : ℚ)).getD 0 + 0 - 115000))
            (.finite 1000) (.finite (1 / 1000)) (.finite 115000) then []
        else
          [{ type := "FIN.EQ.ROLLFORWARD_BREAK", severity := "CRITICAL", entity_id := "E1",
             statement := "EQ",
             message := "Equity roll-forward fails beyond tolerance.",
             details := [("EquityOpening", .finite 100000),
                         ("Profit", .finite ((some (20000 : ℚ)).getD 0)),
                         ("Dividends", .finite ((some (5000 : ℚ)).getD 0)),
                         ("OtherEquityMovements", .finite 0),
                         ("ExpectedEquityClosing",
                          .finite ((100000 : ℚ) + (some (20000 : ℚ)).getD 0 -
                            (some (5000 : ℚ)).getD 0 + 0)),
                         ("EquityClosing", .finite 115000),
                         ("delta",
                          .finite ((100000 : ℚ) + (some (20000 : ℚ)).getD 0 -
                            (some (5000 : ℚ)).getD 0 + 0 - 115000)),
                         ("tolerance_abs", .finite 1000), ("tolerance_pct", .finite (1 / 1000))] }] :=
  ⟨by decide, by decide, by decide, by decide, by decide,
    eq_rollforward_break_spec.1 (.finite 1000) (.finite (1 / 1000)) "E1" sampleEQEntity 100000
      115000 0 (some 20000) (some 5000) (by decide) (by decide) (by decide) (by decide) (by decide)⟩

/-- C5: per entity, exactly one CRITICAL `FIN.DIV.LEGALITY_IMPOSSIBLE`
signal is emitted iff `EquityClosing` and the check-2-resolved dividends
are both present and `|dividends| > |closing| + absTol` (independently of
whether `EquityOpening` is present), and the signal's details carry the
threshold `|closing| + absTol` actually used. -/
theorem div_legality_spec :
    (∀ (atol : ℚ) (ptol : PyFloat) (eid : String) (st : EntityStatements) (c d : ℚ),
      closingOf st = some (.finite c) → dividendsOf st = some (.finite d) →
      (checkEntity (.finite atol) ptol eid st).filter
          (fun s => s.type == "FIN.DIV.LEGALITY_IMPOSSIBLE") =
        if |c| + atol < |d| then
          [{ type := "FIN.DIV.LEGALITY_IMPOSSIBLE", severity := "CRITICAL", entity_id := eid,
             statement := "EQ",
             message := "Dividend appears structurally impossible relative to closing equity capacity (pilot test).",
             details := [("Dividends", .finite d), ("EquityClosing", .finite c),
                         ("threshold", .finite (|c| + atol)), ("tolerance_abs", .finite atol)] }]
        else [])
    ∧ (∀ (atol ptol : PyFloat) (eid : String) (st : EntityStatements),
      closingOf st = none ∨ dividendsOf st = none →
      (checkEntity atol ptol eid st).filter
          (fun s => s.type == "FIN.DIV.LEGALITY_IMPOSSIBLE") = []) := by
  constructor
  · intro atol ptol eid st c d h1 h2
    rw [checkEntity_filter_div]
    unfold divCheck
    rw [h1, h2]
    simp
  · intro atol ptol eid st h
    rw [checkEntity_filter_div]
    unfold divCheck
    rcases h1 : closingOf st with _ | x <;> rcases h2 : dividendsOf st with _ | y <;> simp_all

/-- C5 witness: Scenario D — dividends 200,000 against closing equity
50,000 with absolute tolerance 1000, in an entity whose `EquityOpening` is
absent (so the roll-forward check is skipped). -/
theorem div_legality_spec_witness :
    closingOf sampleDIVEntity = some (.finite 50000) ∧
      dividendsOf sampleDIVEntity = some (.finite 200000) ∧
      openingOf sampleDIVEntity = none ∧
      (checkEntity (.finite 1000) (.finite (1 / 1000)) "E1" sampleDIVEntity).filter
          (fun s => s.type == "FIN.DIV.LEGALITY_IMPOSSIBLE") =
        (if |(50000 : ℚ)| + 1000 < |(200000 : ℚ)| then
          [{ type := "FIN.DIV.LEGALITY_IMPOSSIBLE", severity := "CRITICAL", entity_id := "E1",
             statement := "EQ",
             message := "Dividend appears structurally impossible relative to closing equity capacity (pilot test).",
             details := [("Dividends", .finite 200000), ("EquityClosing", .finite 50000),
                         ("threshold", .finite (|(50000 : ℚ)| + 1000)),
                         ("tolerance_abs", .finite 1000)] }]
        else []) :=
  ⟨by decide, by decide, by decide,
    div_legality_spec.1 1000 (.finite (1 / 1000)) "E1" sampleDIVEntity 50000 200000
      (by decide) (by decide)⟩

theorem dget_dinsert {α : Type} (l : List (String × α)) (k k2 : String) (v : α) :
    dget (dinsert l k v) k2 = if k = k2 then some v else dget l k2 := by
  induction l with
  | nil => simp [dinsert, dget]
  | cons hd t ih =>
    obtain ⟨k3, v3⟩ := hd
    by_cases e1 : k3 = k <;> by_cases e2 : k3 = k2 <;> by_cases e3 : k = k2 <;>
      simp_all [dinsert, dget]

theorem rule_fold_lookup (t : String) (ht : t ≠ "") :
    ∀ (rules : List RuleEntry) (out : List (String × RuleEntry)),
      dget (rules.foldl (fun out r =>
        match r.signal_type with
        | some st => if st = "" then out else dinsert out st r
        | none => out) out) t =
      rules.foldl (fun acc r => if r.signal_type = some t then some r else acc) (dget out t) := by
  intro rules
  induction rules with
  | nil => intro out; rfl
  | cons r rt ih =>
    intro out
    simp only [List.foldl_cons]
    rw [ih]
    congr 1
    rcases hs : r.signal_type with _ | st
    · simp [hs]
    · by_cases he : st = ""
      · subst he
        have h2 : ¬ ("" = t) := fun e => ht e.symm
        simp [hs, h2]
      · by_cases het : st = t <;> simp [he, het, ht, dget_dinsert]

theorem dget_rule_lookup (rp : RulePack) (t : String) (ht : t ≠ "") :
    dget (_rule_lookup rp) t = specLastRule rp.rules t := by
  unfold _rule_lookup specLastRule
  have h := rule_fold_lookup t ht rp.rules []
  simpa using h

/-- C6: for every emitted signal, the annotated `risk_level`, `escalation`
and `rule_id` come from the rule entry whose `signal_type` exactly equals
the signal's type — the last such entry in list order winning — each field
independently defaulting to `"UNSPECIFIED"` when the type is unmapped or
that field is absent from the matched entry; an unmapped type is never
fatal (`_apply_rules` is total). -/
theorem rule_annotation_spec :
    ∀ (rp : RulePack) (s : Signal), s.type ≠ "" →
      _apply_rules s (_rule_lookup rp) =
        { risk_level := ((specLastRule rp.rules s.type).bind RuleEntry.risk_level).getD "UNSPECIFIED"
          escalation := ((specLastRule rp.rules s.type).bind RuleEntry.escalation).getD "UNSPECIFIED"
          rule_id := ((specLastRule rp.rules s.type).bind RuleEntry.rule_id).getD "UNSPECIFIED" } := by
  intro rp s h
  rcases hr : specLastRule rp.rules s.type with _ | r <;>
    simp [_apply_rules, dget_rule_lookup rp s.type h, hr]

/-- C6 witness: a rule pack with two entries for `FIN.BS.EQUATION_BREAK`;
the whole last entry wins, so `risk_level` falls back to `"UNSPECIFIED"`
even though the first entry carried one. -/
theorem rule_annotation_spec_witness :
    sampleSignal.type ≠ "" ∧
      _apply_rules sampleSignal (_rule_lookup sampleRulePack) =
        { risk_level :=
            ((specLastRule sampleRulePack.rules sampleSignal.type).bind
              RuleEntry.risk_level).getD "UNSPECIFIED"
          escalation :=
            ((specLastRule sampleRulePack.rules sampleSignal.type).bind
              RuleEntry.escalation).getD "UNSPECIFIED"
          rule_id :=
            ((specLastRule sampleRulePack.rules sampleSignal.type).bind
              RuleEntry.rule_id).getD "UNSPECIFIED" } ∧
      _apply_rules sampleSignal (_rule_lookup sampleRulePack) =
        { risk_level := "UNSPECIFIED", escalation := "UNSPECIFIED", rule_id := "ID2" } :=
  ⟨by decide, rule_annotation_spec sampleRulePack sampleSignal (by decide), by decide⟩

theorem dget_entUpdate (es : Entities) (k : String) (f : EntityStatements → EntityStatements)
    (e : String) :
    dget (entUpdate es k f) e =
      if k = e then some (f ((dget es k).getD {})) else dget es e := by
  induction es with
  | nil => by_cases h : k = e <;> simp [entUpdate, dget, h]
  | cons hd t ih =>
    obtain ⟨k2, v⟩ := hd
    by_cases e1 : k2 = k <;> by_cases e2 : k2 = e <;> by_cases e3 : k = e <;>
      simp_all [entUpdate, dget]

theorem view_foldl {α β γ : Type} (step : α → β → α) (view : α → γ) (upd : β → γ → γ)
    (hstep : ∀ a b, view (step a b) = upd b (view a)) :
    ∀ (l : List β) (a : α), view (l.foldl step a) = l.foldl (fun acc b => upd b acc) (view a) := by
  intro l
  induction l with
  | nil => intro a; rfl
  | cons b t ih => intro a; simp only [List.foldl_cons]; rw [ih, hstep]

theorem view_foldl_const {α β γ : Type} (step : α → β → α) (view : α → γ)
    (hstep : ∀ a b, view (step a b) = view a) :
    ∀ (l : List β) (a : α), view (l.foldl step a) = view a := by
  intro l
  induction l with
  | nil => intro a; rfl
  | cons b t ih => intro a; simp only [List.foldl_cons]; rw [ih, hstep]

theorem lookupBS_stepBS (es : Entities) (r : Row) (e l : String) :
    lookupBS (stepBS es r) e l =
      if keyBS r = some (e, l) then some (bsItemOf r) else lookupBS es e l := by
  unfold stepBS keyBS lookupBS
  by_cases hg : bsEntity r = "" ∨ rowLineId r = ""
  · simp [hg]
  · simp only [if_neg hg]
    rw [dget_entUpdate]
    by_cases he : bsEntity r = e
    · subst he
      by_cases hl : rowLineId r = l
      · simp [hl, dget_dinsert]
      · rcases hd : dget es (bsEntity r) with _ | st <;> simp [hd, hl, dget_dinsert, dget]
    · simp [he]

theorem lookupIS_stepIS (es : Entities) (r : Row) (e l : String) :
    lookupIS (stepIS es r) e l =
      if keyIS r = some (e, l) then some (amtItemOf r) else lookupIS es e l := by
  unfold stepIS keyIS lookupIS
  by_cases hg : isEntity r = "" ∨ rowLineId r = ""
  · simp [hg]
  · simp only [if_neg hg]
    rw [dget_entUpdate]
    by_cases he : isEntity r = e
    · subst he
      by_cases hl : rowLineId r = l
      · simp [hl, dget_dinsert]
      · rcases hd : dget es (isEntity r) with _ | st <;> simp [hd, hl, dget_dinsert, dget]
    · simp [he]

theorem lookupEQ_stepEQ (es : Entities) (r : Row) (e l : String) :
    lookupEQ (stepEQ es r) e l =
      if keyEQ r = some (e, l) then some (amtItemOf r) else lookupEQ es e l := by
  unfold stepEQ keyEQ lookupEQ
  by_cases hg : eqEntity r = "" ∨ rowLineId r = ""
  · simp [hg]
  · simp only [if_neg hg]
    rw [dget_entUpdate]
    by_cases he : eqEntity r = e
    · subst he
      by_cases hl : rowLineId r = l
      · simp [hl, dget_dinsert]
      · rcases hd : dget es (eqEntity r) with _ | st <;> simp [hd, hl, dget_dinsert, dget]
    · simp [he]

theorem lookupBS_stepIS (es : Entities) (r : Row) (e l : String) :
    lookupBS (stepIS es r) e l = lookupBS es e l := by
  unfold stepIS lookupBS
  by_cases hg : isEntity r = "" ∨ rowLineId r = ""
  · simp [hg]
  · simp only [if_neg hg]
    rw [dget_entUpdate]
    by_cases he : isEntity r = e
    · subst he
      rcases hd : dget es (isEntity r) with _ | st <;> simp [hd, dget]
    · simp [he]

theorem lookupBS_stepEQ (es : Entities) (r : Row) (e l : String) :
    lookupBS (stepEQ es r) e l = lookupBS es e l := by
  unfold stepEQ lookupBS
  by_cases hg : eqEntity r = "" ∨ rowLineId r = ""
  · simp [hg]
  · simp only [if_neg hg]
    rw [dget_entUpdate]
    by_cases he : eqEntity r = e
    · subst he
      rcases hd : dget es (eqEntity r) with _ | st <;> simp [hd, dget]
    · simp [he]

theorem lookupIS_stepBS (es : Entities) (r : Row) (e l : String) :
    lookupIS (stepBS es r) e l = lookupIS es e l := by
  unfold stepBS lookupIS
  by_cases hg : bsEntity r = "" ∨ rowLineId r = ""
  · simp [hg]
  · simp only [if_neg hg]
    rw [dget_entUpdate]
    by_cases he : bsEntity r = e
    · subst he
      rcases hd : dget es (bsEntity r) with _ | st <;> simp [hd, dget]
    · simp [he]

theorem lookupIS_stepEQ (es : Entities) (r : Row) (e l : String) :
    lookupIS (stepEQ es r) e l = lookupIS es e l := by
  unfold stepEQ lookupIS
  by_cases hg : eqEntity r = "" ∨ rowLineId r = ""
  · simp [hg]
  · simp only [if_neg hg]
    rw [dget_entUpdate]
    by_cases he : eqEntity r = e
    · subst he
      rcases hd : dget es (eqEntity r) with _ | st <;> simp [hd, dget]
    · simp [he]

theorem lookupEQ_stepBS (es : Entities) (r : Row) (e l : String) :
    lookupEQ (stepBS es r) e l = lookupEQ es e l := by
  unfold stepBS lookupEQ
  by_cases hg : bsEntity r = "" ∨ rowLineId r = ""
  · simp [hg]
  · simp only [if_neg hg]
    rw [dget_entUpdate]
    by_cases he : bsEntity r = e
    · subst he
      rcases hd : dget es (bsEntity r) with _ | st <;> simp [hd, dget]
    · simp [he]

theorem lookupEQ_stepIS (es : Entities) (r : Row) (e l : String) :
    lookupEQ (stepIS es r) e l = lookupEQ es e l := by
  unfold stepIS lookupEQ
  by_cases hg : isEntity r = "" ∨ rowLineId r = ""
  · simp [hg]
  · simp only [if_neg hg]
    rw [dget_entUpdate]
    by_cases he : isEntity r = e
    · subst he
      rcases hd : dget es (isEntity r) with _ | st <;> simp [hd, dget]
    · simp [he]

/-- C7: a row is silently discarded (contributes nothing, raises nothing)
exactly when its trimmed entity or line identifier is empty; otherwise it
is stored keyed by `(entity, kind, line id)`, and among kept rows sharing a
key the last one in sheet order determines the stored line item
(last-write-wins): the stored item for each key equals the fold that keeps
the item of the last matching kept row. -/
theorem parser_row_handling :
    (∀ (es : Entities) (r : Row), keyBS r = none → stepBS es r = es)
    ∧ (∀ (es : Entities) (r : Row), keyIS r = none → stepIS es r = es)
    ∧ (∀ (es : Entities) (r : Row), keyEQ r = none → stepEQ es r = es)
    ∧ (∀ (ds : Dataset) (e l : String),
        lookupBS (_parse_dataset ds) e l =
          ds.BS.foldl (fun acc r => if keyBS r = some (e, l) then some (bsItemOf r) else acc) none)
    ∧ (∀ (ds : Dataset) (e l : String),
        lookupIS (_parse_dataset ds) e l =
          ds.IS.foldl (fun acc r => if keyIS r = some (e, l) then some (amtItemOf r) else acc) none)
    ∧ (∀ (ds : Dataset) (e l : String),
        lookupEQ (_parse_dataset ds) e l =
          ds.EQ.foldl (fun acc r => if keyEQ r = some (e, l) then some (amtItemOf r) else acc)
            none) := by
  refine ⟨?_, ?_, ?_, ?_, ?_, ?_⟩
  · intro es r h
    by_cases hg : bsEntity r = "" ∨ rowLineId r = ""
    · simp [stepBS, hg]
    · simp [keyBS, hg] at h
  · intro es r h
    by_cases hg : isEntity r = "" ∨ rowLineId r = ""
    · simp [stepIS, hg]
    · simp [keyIS, hg] at h
  · intro es r h
    by_cases hg : eqEntity r = "" ∨ rowLineId r = ""
    · simp [stepEQ, hg]
    · simp [keyEQ, hg] at h
  · intro ds e l
    unfold _parse_dataset
    rw [view_foldl_const stepEQ (fun es => lookupBS es e l) (fun es r => lookupBS_stepEQ es r e l),
      view_foldl_const stepIS (fun es => lookupBS es e l) (fun es r => lookupBS_stepIS es r e l),
      view_foldl stepBS (fun es => lookupBS es e l)
        (fun r acc => if keyBS r = some (e, l) then some (bsItemOf r) else acc)
        (fun es r => lookupBS_stepBS es r e l)]
    rfl
  · intro ds e l
    unfold _parse_dataset
    rw [view_foldl_const stepEQ (fun es => lookupIS es e l) (fun es r => lookupIS_stepEQ es r e l),
      view_foldl stepIS (fun es => lookupIS es e l)
        (fun r acc => if keyIS r = some (e, l) then some (amtItemOf r) else acc)
        (fun es r => lookupIS_stepIS es r e l),
      view_foldl_const stepBS (fun es => lookupIS es e l) (fun es r => lookupIS_stepBS es r e l)]
    rfl
  · intro ds e l
    unfold _parse_dataset
    rw [view_foldl stepEQ (fun es => lookupEQ es e l)
        (fun r acc => if keyEQ r = some (e, l) then some (amtItemOf r) else acc)
        (fun es r => lookupEQ_stepEQ es r e l),
      view_foldl_const stepIS (fun es => lookupEQ es e l) (fun es r => lookupEQ_stepIS es r e l),
      view_foldl_const stepBS (fun es => lookupEQ es e l) (fun es r => lookupEQ_stepBS es r e l)]
    rfl

/-- C7 witness: the blank-line-id balance-sheet row of the sample dataset
is discarded without effect, and the stored `AssetsTotal` item of entity
`A` is the fold over the BS rows keeping the last kept match. -/
theorem parser_row_handling_witness :
    keyBS [("Balance_sheet", .str "A"), ("Unnamed: 1", .str "  "), ("Unnamed: 2", .str "7")] =
        none ∧
      stepBS [] [("Balance_sheet", .str "A"), ("Unnamed: 1", .str "  "), ("Unnamed: 2", .str "7")] =
        [] ∧
      lookupBS (_parse_dataset sampleDataset) "A" "AssetsTotal" =
        sampleDataset.BS.foldl
          (fun acc r => if keyBS r = some ("A", "AssetsTotal") then some (bsItemOf r) else acc)
          none :=
  ⟨by decide,
    parser_row_handling.1 []
      [("Balance_sheet", .str "A"), ("Unnamed: 1", .str "  "), ("Unnamed: 2", .str "7")]
      (by decide),
    parser_row_handling.2.2.2.1 sampleDataset "A" "AssetsTotal"⟩

theorem keys_entUpdate (es : Entities) (k : String) (f : EntityStatements → EntityStatements) :
    dictKeys (entUpdate es k f) = keyInsert (dictKeys es) k := by
  induction es with
  | nil => simp [entUpdate, dictKeys, keyInsert]
  | cons hd t ih =>
    obtain ⟨k2, v⟩ := hd
    by_cases e1 : k2 = k
    · simp [entUpdate, dictKeys, keyInsert, e1]
    · by_cases e2 : k ∈ dictKeys t <;>
        simp_all [entUpdate, dictKeys, keyInsert, Ne.symm e1]

theorem keys_stepBS (es : Entities) (r : Row) :
    dictKeys (stepBS es r) =
      match entKeyBS r with
      | some k => keyInsert (dictKeys es) k
      | none => dictKeys es := by
  unfold stepBS entKeyBS keyBS
  by_cases hg : bsEntity r = "" ∨ rowLineId r = "" <;> simp [hg, keys_entUpdate]

theorem keys_stepIS (es : Entities) (r : Row) :
    dictKeys (stepIS es r) =
      match entKeyIS r with
      | some k => keyInsert (dictKeys es) k
      | none => dictKeys es := by
  unfold stepIS entKeyIS keyIS
  by_cases hg : isEntity r = "" ∨ rowLineId r = "" <;> simp [hg, keys_entUpdate]

theorem keys_stepEQ (es : Entities) (r : Row) :
    dictKeys (stepEQ es r) =
      match entKeyEQ r with
      | some k => keyInsert (dictKeys es) k
      | none => dictKeys es := by
  unfold stepEQ entKeyEQ keyEQ
  by_cases hg : eqEntity r = "" ∨ rowLineId r = "" <;> simp [hg, keys_entUpdate]

theorem keys_fold (step : Entities → Row → Entities) (ent : Row → Option String)
    (hstep : ∀ es r, dictKeys (step es r) =
      match ent r with
      | some k => keyInsert (dictKeys es) k
      | none => dictKeys es) :
    ∀ (rows : List Row) (es : Entities),
      dictKeys (rows.foldl step es) = (rows.filterMap ent).foldl keyInsert (dictKeys es) := by
  intro rows
  induction rows with
  | nil => intro es; rfl
  | cons r t ih =>
    intro es
    simp only [List.foldl_cons]
    rw [ih, hstep]
    rcases h : ent r <;> simp [List.filterMap_cons, h]

theorem mem_keyInsert (ks : List String) (k a : String) :
    a ∈ keyInsert ks k ↔ a ∈ ks ∨ a = k := by
  unfold keyInsert
  by_cases h : k ∈ ks
  · simp only [if_pos h]
    exact ⟨Or.inl, fun x => x.elim id fun e => e ▸ h⟩
  · simp [if_neg h]

theorem mem_foldl_keyInsert (l : List String) (ks : List String) (a : String) :
    a ∈ l.foldl keyInsert ks ↔ a ∈ ks ∨ a ∈ l := by
  induction l generalizing ks with
  | nil => simp
  | cons k t ih =>
    simp only [List.foldl_cons, ih, mem_keyInsert, List.mem_cons]
    tauto

theorem foldl_keyInsert_split (l : List String) (ks : List String) :
    ∃ t, l.foldl keyInsert ks = ks ++ t ∧ ∀ b ∈ t, b ∉ ks := by
  induction l generalizing ks with
  | nil => exact ⟨[], by simp, by simp⟩
  | cons k lt ih =>
    by_cases h : k ∈ ks
    · simpa only [List.foldl_cons, keyInsert, if_pos h] using ih ks
    · simp only [List.foldl_cons, keyInsert, if_neg h]
      obtain ⟨t, ht, hnotin⟩ := ih (ks ++ [k])
      refine ⟨k :: t, ?_, ?_⟩
      · rw [ht]; simp
      · intro b hb
        rcases List.mem_cons.1 hb with rfl | hb2
        · exact h
        · intro hbks
          exact hnotin b hb2 (by simp [hbks])

theorem foldl_append_acc {α β : Type} (g : β → List α) :
    ∀ (l : List β) (acc : List α),
      l.foldl (fun acc e => acc ++ g e) acc = acc ++ (l.map g).flatten := by
  intro l
  induction l with
  | nil => intro acc; simp
  | cons e t ih => intro acc; simp [ih, List.append_assoc]

/-- C9: entity discovery order — and hence signal order — is first
appearance of each kept entity scanning all BS rows, then all IS rows,
then all EQ rows; the signals of a run are the per-entity check results
concatenated in that order; consequently an entity appearing (kept) only
in the EQ sheet is processed after every entity appearing in the BS sheet. -/
theorem entity_discovery_order :
    (∀ ds : Dataset, dictKeys (_parse_dataset ds) = entityOrderSpec ds)
    ∧ (∀ (a p : PyFloat) (ents : Entities),
        runSignals a p ents = (ents.map fun e => checkEntity a p e.1 e.2).flatten)
    ∧ (∀ (ds : Dataset) (x y : String),
        x ∈ ds.BS.filterMap entKeyBS → y ∉ ds.BS.filterMap entKeyBS →
        y ∉ ds.IS.filterMap entKeyIS → y ∈ ds.EQ.filterMap entKeyEQ →
        ∃ l1 l2, dictKeys (_parse_dataset ds) = l1 ++ l2 ∧ x ∈ l1 ∧ y ∈ l2 ∧ y ∉ l1) := by
  have horder : ∀ ds : Dataset, dictKeys (_parse_dataset ds) = entityOrderSpec ds := by
    intro ds
    unfold _parse_dataset entityOrderSpec
    rw [keys_fold stepEQ entKeyEQ keys_stepEQ, keys_fold stepIS entKeyIS keys_stepIS,
      keys_fold stepBS entKeyBS keys_stepBS]
    simp [List.foldl_append, dictKeys]
  refine ⟨horder, ?_, ?_⟩
  · intro a p ents
    unfold runSignals
    simpa using foldl_append_acc (fun e => checkEntity a p e.1 e.2) ents []
  · intro ds x y hx hyBS hyIS hyEQ
    rw [horder]
    unfold entityOrderSpec
    rw [List.foldl_append, List.foldl_append]
    obtain ⟨t, ht, hnotin⟩ :=
      foldl_keyInsert_split (ds.EQ.filterMap entKeyEQ)
        ((ds.IS.filterMap entKeyIS).foldl keyInsert
          ((ds.BS.filterMap entKeyBS).foldl keyInsert []))
    obtain ⟨t2, ht2, hnotin2⟩ :=
      foldl_keyInsert_split (ds.IS.filterMap entKeyIS)
        ((ds.BS.filterMap entKeyBS).foldl keyInsert [])
    refine ⟨(ds.IS.filterMap entKeyIS).foldl keyInsert
      ((ds.BS.filterMap entKeyBS).foldl keyInsert []), t, ht, ?_, ?_, ?_⟩
    · rw [ht2]
      exact List.mem_append_left _ ((mem_foldl_keyInsert _ _ _).2 (Or.inr hx))
    · have hy : y ∈ (ds.EQ.filterMap entKeyEQ).foldl keyInsert
          ((ds.IS.filterMap entKeyIS).foldl keyInsert
            ((ds.BS.filterMap entKeyBS).foldl keyInsert [])) :=
        (mem_foldl_keyInsert _ _ _).2 (Or.inr hyEQ)
      rw [ht] at hy
      rcases List.mem_append.1 hy with hmid | hy2
      · exfalso
        rcases (mem_foldl_keyInsert _ _ _).1 hmid with hbs | his
        · rcases (mem_foldl_keyInsert _ _ _).1 hbs with hnil | hbs2
          · simp at hnil
          · exact hyBS hbs2
        · exact hyIS his
      · exact hy2
    · intro hmid
      rcases (mem_foldl_keyInsert _ _ _).1 hmid with hbs | his
      · rcases (mem_foldl_keyInsert _ _ _).1 hbs with hnil | hbs2
        · simp at hnil
        · exact hyBS hbs2
      · exact hyIS his

/-- C9 witness: in the sample dataset entity `A` appears (kept) in the BS
sheet and entity `B` only in the EQ sheet, so `A` precedes `B` in the
parsed model's entity order. -/
theorem entity_discovery_order_witness :
    "A" ∈ sampleDataset.BS.filterMap entKeyBS ∧
      "B" ∉ sampleDataset.BS.filterMap entKeyBS ∧
      "B" ∉ sampleDataset.IS.filterMap entKeyIS ∧
      "B" ∈ sampleDataset.EQ.filterMap entKeyEQ ∧
      (∃ l1 l2, dictKeys (_parse_dataset sampleDataset) = l1 ++ l2 ∧ "A" ∈ l1 ∧ "B" ∈ l2 ∧
        "B" ∉ l1) :=
  ⟨by decide, by decide, by decide, by decide,
    entity_discovery_order.2.2 sampleDataset "A" "B" (by decide) (by decide) (by decide)
      (by decide)⟩

theorem annotate_base (rm : List (String × RuleEntry)) (sigs : List Signal) :
    (annotateSignals rm sigs).map baseOf = sigs := by
  induction sigs with
  | nil => rfl
  | cons s t ih => simpa [annotateSignals, baseOf] using ih

theorem bsCheck_all_ok (a p : PyFloat) (e : String) (st : EntityStatements) :
    (bsCheck a p e st).all
      (fun s => (s.severity == sevOfType s.type) && fiveSignalTypes.contains s.type) = true := by
  unfold bsCheck
  split
  · split
    · rfl
    · simp [List.all_cons, List.all_nil, sevOfType, fiveSignalTypes]
  · rfl

theorem eqCheck_all_ok (a p : PyFloat) (e : String) (st : EntityStatements) :
    (eqCheck a p e st).all
      (fun s => (s.severity == sevOfType s.type) && fiveSignalTypes.contains s.type) = true := by
  unfold eqCheck
  split
  · split
    · rfl
    · simp [List.all_cons, List.all_nil, sevOfType, fiveSignalTypes]
  · rfl

theorem divCheck_all_ok (a : PyFloat) (e : String) (st : EntityStatements) :
    (divCheck a e st).all
      (fun s => (s.severity == sevOfType s.type) && fiveSignalTypes.contains s.type) = true := by
  unfold divCheck
  split
  · split
    · simp [List.all_cons, List.all_nil, sevOfType, fiveSignalTypes]
    · rfl
  · rfl

theorem cpCheck_all_ok (e : String) (st : EntityStatements) :
    (cpCheck e st).all
      (fun s => (s.severity == sevOfType s.type) && fiveSignalTypes.contains s.type) = true := by
  unfold cpCheck
  split
  · split
    · simp [List.all_cons, List.all_nil, sevOfType, fiveSignalTypes]
    · rfl
  · rfl

theorem impCheck_all_ok (e : String) (st : EntityStatements) :
    (impCheck e st).all
      (fun s => (s.severity == sevOfType s.type) && fiveSignalTypes.contains s.type) = true := by
  unfold impCheck
  split
  · split
    · simp [List.all_cons, List.all_nil, sevOfType, fiveSignalTypes]
    · rfl
  · rfl

theorem checkEntity_all_ok (a p : PyFloat) (e : String) (st : EntityStatements) :
    (checkEntity a p e st).all
      (fun s => (s.severity == sevOfType s.type) && fiveSignalTypes.contains s.type) = true := by
  unfold checkEntity
  simp only [List.all_append, Bool.and_eq_true]
  exact ⟨⟨⟨⟨bsCheck_all_ok a p e st, eqCheck_all_ok a p e st⟩, divCheck_all_ok a e st⟩,
    cpCheck_all_ok e st⟩, impCheck_all_ok e st⟩

theorem runSignals_all_ok (a p : PyFloat) (ents : Entities) :
    (runSignals a p ents).all
      (fun s => (s.severity == sevOfType s.type) && fiveSignalTypes.contains s.type) = true := by
  unfold runSignals
  have h : ∀ (es : Entities) (acc : List Signal),
      acc.all (fun s => (s.severity == sevOfType s.type) && fiveSignalTypes.contains s.type) =
        true →
      (es.foldl (fun acc e => acc ++ checkEntity a p e.1 e.2) acc).all
        (fun s => (s.severity == sevOfType s.type) && fiveSignalTypes.contains s.type) = true := by
    intro es
    induction es with
    | nil => exact fun acc h => h
    | cons e t ih =>
      intro acc hacc
      refine ih _ ?_
      simp only [List.all_append, Bool.and_eq_true]
      exact ⟨hacc, checkEntity_all_ok a p e.1 e.2⟩
  exact h ents [] rfl

/-- C8: for a fixed dataset and constraint pack, any two rule packs yield
reports with the same signals in the same order agreeing on type,
severity, entity id, statement, message and details (the rule pack only
influences `risk_level`/`escalation`/`rule_id`); and every emitted
signal's severity is the fixed function of its type — HIGH for
`FIN.WRITEDOWN.CAUSALITY_BREAK`, CRITICAL for the other four types — so
the `_severity_default` fallback is observationally never exercised. -/
theorem rulepack_noninterference :
    ∀ (ds : Dataset) (cp : ConstraintPack) (rp1 rp2 : RulePack),
      (run ds cp rp1).signals.map baseOf = (run ds cp rp2).signals.map baseOf ∧
      (run ds cp rp1).signals_count = (run ds cp rp2).signals_count ∧
      ((run ds cp rp1).signals.all fun s =>
        (s.severity == sevOfType s.type) && fiveSignalTypes.contains s.type) = true := by
  intro ds cp rp1 rp2
  refine ⟨?_, ?_, ?_⟩
  · simp [run, annotate_base]
  · simp [run, annotateSignals]
  · have hbase := annotate_base (_rule_lookup rp1)
      (runSignals (cp.absolute.getD (.finite 1000)) (cp.percentage.getD (.finite (1 / 1000)))
        (_parse_dataset ds))
    simp only [run]
    rw [show ∀ (rm : List (String × RuleEntry)) (sigs : List Signal),
        ((annotateSignals rm sigs).all fun s =>
          (s.severity == sevOfType s.type) && fiveSignalTypes.contains s.type) =
        (sigs.all fun s =>
          (s.severity == sevOfType s.type) && fiveSignalTypes.contains s.type)
      from fun rm sigs => by
        induction sigs with
        | nil => rfl
        | cons s t ih => simp [annotateSignals] at ih ⊢; rw [ih]]
    exact runSignals_all_ok _ _ _
